import Mathlib

/-!
Verification development for the two-stage video captioning pipeline
(`captioning/vllm_caption.py`): a shallow embedding of its data model,
conversation formatters, writer worker, queue configuration, and the main
routine's control flow, with theorems settling the specified properties.
-/

/-! ## Prompt constants (module-level strings of the source, after `.strip()`) -/

def SYSTEM_PROMPT : String :=
  "You are part of a team of people that create videos using generative models. You use a video-generation model that can generate a video about anything you describe.\nFor example, if you respond with \"A beautiful morning in the woods with the sun peaking through the trees\", the video generation model will create a video of exactly as described. You task is to summarize the descriptions of videos provided to by users, and create details prompts to feed into the generative model.\nThere are a few rules to follow:\n- You will only ever output a single video description per request.\n- If the user mentions to summarize the prompt in [X] words, make sure to not exceed the limit.\nYou responses should just be the video generation prompt. Here are examples:\n- \"A detailed wooden toy ship with intricately carved masts and sails is seen gliding smoothly over a plush, blue carpet that mimics the waves of the sea. The ship\x27s hull is painted a rich brown, with tiny windows. The carpet, soft and textured, provides a perfect backdrop, resembling an oceanic expanse. Surrounding the ship are various other toys and children\x27s items, hinting at a playful environment. The scene captures the innocence and imagination of childhood, with the toy ship\x27s journey symbolizing endless adventures in a whimsical, indoor setting.\"\n- \"A street artist, clad in a worn-out denim jacket and a colorful bandana, stands before a vast concrete wall in the heart, holding a can of spray paint, spray-painting a colorful bird on a mottled wall\""

def SUMMARY_USER_PROMPT : String :=
  "Please summarize this video and limit the summary to 100-200 words."

def PROMPT_GEN_USER_PROMPT : String :=
  "Could you generate a prompt for a video generation model given the following summary:\n\n```\n{0}\n```\n\nPlease limit the prompt to [{1}] words."

/-! ## Data model -/

/-- One sample yielded by the `VideoDataset` data source: a filename and the
ordered list of its base64-encoded frames (frames are opaque strings here). -/
structure VideoSample where
  filename : String
  video : List String
deriving DecidableEq, Repr

/-- The dict built by `collate_fn`: parallel lists `videos` and `filename`. -/
structure CollatedBatch where
  videos : List (List String)
  filename : List String
deriving DecidableEq, Repr

/-- `collate_fn(batch)`: zips the per-sample fields into two parallel lists. -/
def collate_fn (batch : List VideoSample) : CollatedBatch :=
  { videos := batch.map (fun sample => sample.video)
    filename := batch.map (fun sample => sample.filename) }

/-- One content block of a chat message: either a text block or an
`image_url` block (the dicts appended to `content` in the source). -/
inductive ContentPart where
  | text (t : String)
  | image_url (url : String)
deriving DecidableEq, Repr

/-- One role-tagged message of a conversation. -/
structure ChatMessage where
  role : String
  content : List ContentPart
deriving DecidableEq, Repr

/-- A conversation as passed to `engine.chat`: a list of messages. -/
abbrev Conversation := List ChatMessage

/-- The per-batch record `video_data_item` accumulated after stage 1:
parallel lists `filename` and `summary`. -/
structure VideoDataItem where
  filename : List String
  summary : List String
deriving DecidableEq, Repr

/-! ## String helpers modelling Python primitives -/

/-- Single-pass positional substitution modelling `template.format(a0, a1)`
for templates whose placeholders are `{0}` and `{1}` (the only form the
source's templates use); replaced text is not rescanned, as in Python. -/
def formatSubst (a0 a1 : List Char) : List Char → List Char
  | [] => []
  | '\x7b' :: '0' :: '\x7d' :: rest => a0 ++ formatSubst a0 a1 rest
  | '\x7b' :: '1' :: '\x7d' :: rest => a1 ++ formatSubst a0 a1 rest
  | c :: rest => c :: formatSubst a0 a1 rest

/-- `template.format(a0, a1)` on strings. -/
def pyFormat2 (template a0 a1 : String) : String :=
  ⟨formatSubst a0.data a1.data template.data⟩

/-- Python slice `s[1:-1]`: drops the first and the last character; total,
and returns the empty string on inputs of length at most 2 (as the slice
does in Python, which never raises on `str` slicing). -/
def pySliceOneToNegOne (s : String) : String :=
  ⟨(s.data.drop 1).dropLast⟩

/-! ## Conversation formatters -/

/-- The `content` list built for one sample by the summarization formatter:
the prompt text followed by one `image_url` block per frame. -/
def summaryContent (prompt : String) (video : List String) : List ContentPart :=
  ContentPart.text prompt ::
    video.map (fun frame =>
      ContentPart.image_url ("data:image/jpeg;base64," ++ frame))

/-- `create_video_summary_conversations(batch, prompt)`: one single-user-turn
conversation per entry of `batch["videos"]` (the system turn is commented
out in the source), in batch order. -/
def create_video_summary_conversations (batch : CollatedBatch)
    (prompt : Option String := none) : List Conversation :=
  let p := prompt.getD SUMMARY_USER_PROMPT
  batch.videos.map (fun video => [⟨"user", summaryContent p video⟩])

/-- The two-message conversation built for one summary by the
prompt-generation formatter: system persona then the interpolated user turn
(`prompt.format(summary, 20)`). -/
def promptGenMessages (prompt : String) (summary : String) : Conversation :=
  [⟨"system", [ContentPart.text SYSTEM_PROMPT]⟩,
   ⟨"user", [ContentPart.text (pyFormat2 prompt summary "20")]⟩]

/-- `create_prompt_generation_conversations(batch, prompt)`: one conversation
per entry of `batch["summary"]`, in batch order. -/
def create_prompt_generation_conversations (batch : VideoDataItem)
    (prompt : Option String := none) : List Conversation :=
  let p := prompt.getD PROMPT_GEN_USER_PROMPT
  batch.summary.map (fun summary => promptGenMessages p summary)

/-! ## Result writer (`save_results`) and the output queue -/

/-- Output files in `output_dir` as line lists: `videos.txt` and
`captions.txt`, both opened in append mode per flush. -/
structure OutFiles where
  videos : List String
  captions : List String
deriving DecidableEq, Repr

/-- The writer's handling of one dequeued `(video_filenames, outputs)` pair:
appends every filename to `videos.txt` and every caption to `captions.txt`,
as one unit (both streams advance together before the next dequeue). -/
def writeItemFiles (fs : OutFiles) (video_filenames outputs : List String) :
    OutFiles :=
  { videos := fs.videos ++ video_filenames
    captions := fs.captions ++ outputs }

/-- One observable outcome of `output_queue.get(timeout=5)` in the writer's
loop: either the 5-second timeout elapsed on an empty queue (`queue.Empty`),
or an item was dequeued — `none` being the sentinel the producer enqueues,
`some (filenames, outputs)` a real payload. -/
inductive QEvent where
  | emptyTimeout
  | got (item : Option (List String × List String))
deriving DecidableEq, Repr

/-- `save_results(output_queue, output_dir)` over a finite stream of dequeue
outcomes: skips timeouts and keeps looping, writes each payload, and returns
(`some` final files) exactly when it dequeues the sentinel `None`; an
exhausted stream without a sentinel (`none` result) models the writer still
looping, never having terminated. -/
def save_results : List QEvent → OutFiles → Option OutFiles
  | [], _ => none
  | QEvent.emptyTimeout :: rest, fs => save_results rest fs
  | QEvent.got none :: _, fs => some fs
  | QEvent.got (some item) :: rest, fs =>
      save_results rest (writeItemFiles fs item.1 item.2)

/-- The payloads the writer dequeues and writes before it stops: every real
payload up to the first sentinel (or all of them when no sentinel arrives). -/
def payloadsBeforeStop : List QEvent → List (List String × List String)
  | [] => []
  | QEvent.emptyTimeout :: rest => payloadsBeforeStop rest
  | QEvent.got none :: _ => []
  | QEvent.got (some item) :: rest => item :: payloadsBeforeStop rest

/-- The sequence of file states after each completed write of the writer's
run (state recorded after each payload is written, up to the sentinel). -/
def writerStatesList : List QEvent → OutFiles → List OutFiles
  | [], _ => []
  | QEvent.emptyTimeout :: rest, fs => writerStatesList rest fs
  | QEvent.got none :: _, _ => []
  | QEvent.got (some item) :: rest, fs =>
      writeItemFiles fs item.1 item.2 ::
        writerStatesList rest (writeItemFiles fs item.1 item.2)

/-- `output_queue = queue.Queue()` at line 206 passes no `maxsize`, so the
queue is created with Python's default `maxsize = 0`. -/
def output_queue_maxsize : Nat := 0

/-- Python `queue.Queue` semantics: the queue is size-bounded iff
`maxsize > 0` ("If maxsize is less than or equal to zero, the queue size
is infinite"). -/
def pyQueueBounded (maxsize : Nat) : Bool :=
  decide (0 < maxsize)

/-- Python `queue.Queue.put` blocks iff the queue is bounded and already
holds at least `maxsize` items. -/
def pyPutBlocks (maxsize pending : Nat) : Bool :=
  decide (0 < maxsize) && decide (maxsize ≤ pending)

/-! ## Batching (torch `DataLoader` collation) and the two-stage pipeline -/

/-- Fuel-indexed chunking helper; `fuel ≥ l.length` suffices since each
step consumes at least one element when `size > 0`. -/
def chunksFuel (fuel size : Nat) : List α → List (List α)
  | [] => []
  | l@(_ :: _) =>
    match fuel with
    | 0 => []
    | fuel + 1 =>
      if size = 0 then [] else l.take size :: chunksFuel fuel size (l.drop size)

/-- Models the batching performed by `DataLoader(dataset, batch_size, ...)`
as configured in `prepare_dataloader` (default `drop_last=False`): the
samples are grouped, in arrival order, into consecutive chunks of
`size` elements, the final chunk possibly short. -/
def chunks (size : Nat) (l : List α) : List (List α) :=
  chunksFuel l.length size l

/-- Stage 1 of `main` (the loop over `dataloader`): for each batch, collate,
format summarization conversations, submit them to the summary engine, and
accumulate a `video_data_item` of filenames and summary texts. The engine
(`summary_engine.chat`) is the external inference service; per its contract
it returns one output text per conversation, in input order, so it is
modelled as a per-conversation function `chat1` applied positionally. -/
def runStage1 (chat1 : Conversation → String) (samples : List VideoSample)
    (batch_size : Nat) (video_summary_prompt : Option String) :
    List VideoDataItem :=
  (chunks batch_size samples).map (fun b =>
    let batch := collate_fn b
    let conversations := create_video_summary_conversations batch video_summary_prompt
    { filename := batch.filename
      summary := conversations.map chat1 })

/-- Stage 2 of `main` (the loop over `video_data`): for each accumulated
item, format prompt-generation conversations, submit them to the prompt
engine (`chat2`, modelled as stage 1's engine is), slice each output text
with `[1:-1]`, and enqueue the `(filenames, prompts)` pair. -/
def runStage2 (chat2 : Conversation → String) (video_data : List VideoDataItem)
    (prompt_gen_prompt : Option String) :
    List (List String × List String) :=
  video_data.map (fun batch =>
    let conversations := create_prompt_generation_conversations batch prompt_gen_prompt
    let prompts := (conversations.map chat2).map pySliceOneToNegOne
    (batch.filename, prompts))

/-- The full sequence of `(filenames, prompts)` pairs `main` enqueues onto
`output_queue` during an error-free run. -/
def pipelineItems (chat1 chat2 : Conversation → String)
    (samples : List VideoSample) (batch_size : Nat)
    (video_summary_prompt prompt_gen_prompt : Option String) :
    List (List String × List String) :=
  runStage2 chat2 (runStage1 chat1 samples batch_size video_summary_prompt)
    prompt_gen_prompt

/-- The output files after the writer has drained every enqueued pair of an
error-free run (it writes them in queue order, then stops at the sentinel). -/
def pipelineFiles (chat1 chat2 : Conversation → String)
    (samples : List VideoSample) (batch_size : Nat)
    (video_summary_prompt prompt_gen_prompt : Option String) : OutFiles :=
  (pipelineItems chat1 chat2 samples batch_size video_summary_prompt
      prompt_gen_prompt).foldl
    (fun fs item => writeItemFiles fs item.1 item.2) ⟨[], []⟩

/-! ## Control-flow trace of `main` -/

/-- Observable events of one run of `main`, in program order: engine loads,
writer start, per-batch inference calls, the stage-1 teardown (`del` of the
engine, then `gc.collect()` + `torch.cuda.empty_cache()`), queue puts, the
writer join (`save_thread.shutdown(wait=True)`), and the final return or
error propagation. -/
inductive MainEv where
  | stage1Load
  | writerStart
  | stage1Call (k : Nat)
  | stage1Release
  | memReclaim
  | stage2Load
  | stage2Call (k : Nat)
  | enqueuePayload (k : Nat)
  | enqueueSentinel
  | writerJoin
  | ret
  | raiseErr
deriving DecidableEq, Repr

/-- Where a fatal error can strike inside `main`'s `try` block (any point
after the writer was started): before/during the chat call of stage-1 batch
`k` (after batches `0..k-1` completed), while loading the stage-2 engine
(after the stage-1 teardown), or during the chat call of stage-2 batch `k`
(after batches `0..k-1` were enqueued; the failing call was issued). -/
inductive FailAt where
  | duringStage1 (k : Nat)
  | atStage2Load
  | duringStage2 (k : Nat)
deriving DecidableEq, Repr

/-- The stage-1 loop's calls for `n` batches, in order. -/
def stage1CallsTrace (n : Nat) : List MainEv :=
  (List.range n).map MainEv.stage1Call

/-- The stage-2 loop for `n` batches: each iteration issues the chat call
then enqueues that batch's payload. -/
def stage2LoopTrace (n : Nat) : List MainEv :=
  (List.range n).flatMap (fun k => [MainEv.stage2Call k, MainEv.enqueuePayload k])

/-- The events of `main`'s `try` block for `n1` stage-1 batches and `n2`
stage-2 batches, truncated at the failure point when one occurs. -/
def tryBodyTrace (n1 n2 : Nat) (f : Option FailAt) : List MainEv :=
  match f with
  | none =>
      stage1CallsTrace n1 ++
        [MainEv.stage1Release, MainEv.memReclaim, MainEv.stage2Load] ++
        stage2LoopTrace n2
  | some (FailAt.duringStage1 k) => stage1CallsTrace (min k n1)
  | some FailAt.atStage2Load =>
      stage1CallsTrace n1 ++ [MainEv.stage1Release, MainEv.memReclaim]
  | some (FailAt.duringStage2 k) =>
      stage1CallsTrace n1 ++
        [MainEv.stage1Release, MainEv.memReclaim, MainEv.stage2Load] ++
        stage2LoopTrace (min k n2) ++ [MainEv.stage2Call (min k n2)]

/-- The full event trace of `main`: engine load and writer start, the `try`
body (complete, or cut short by the failure `f`), then — unconditionally,
via the `finally` block — the single sentinel put and the blocking writer
shutdown, and finally the normal return or the propagation of the error. -/
def mainTrace (n1 n2 : Nat) (f : Option FailAt) : List MainEv :=
  [MainEv.stage1Load, MainEv.writerStart] ++ tryBodyTrace n1 n2 f ++
    [MainEv.enqueueSentinel, MainEv.writerJoin] ++
    [if f.isSome then MainEv.raiseErr else MainEv.ret]

/-- A concrete ten-video corpus used to instantiate the end-to-end scenario. -/
def tenSamples : List VideoSample :=
  [⟨"v0.mp4", ["f0"]⟩, ⟨"v1.mp4", ["f1"]⟩, ⟨"v2.mp4", ["f2"]⟩,
   ⟨"v3.mp4", ["f3"]⟩, ⟨"v4.mp4", ["f4"]⟩, ⟨"v5.mp4", ["f5"]⟩,
   ⟨"v6.mp4", ["f6"]⟩, ⟨"v7.mp4", ["f7"]⟩, ⟨"v8.mp4", ["f8"]⟩,
   ⟨"v9.mp4", ["f9"]⟩]

/-! ## Theorems -/

/-- C10: the quote-stripping slice `text[1 : -1]` applied to each stage-2
output is total on all strings — for every input it returns a string (of
length `input length - 2`, truncated at zero) without raising — and every
input of length at most 2, including lengths 0, 1 and 2, maps to the empty
string. -/
theorem slice_total_short_inputs_empty (s : String) :
    (pySliceOneToNegOne s).length = s.length - 2 ∧
    (s.length ≤ 2 → pySliceOneToNegOne s = "") := by
  have hL : ∀ t : String, t.length = t.data.length := fun _ => rfl
  constructor
  · show ((s.data.drop 1).dropLast).length = s.length - 2
    rw [hL s]
    simp only [List.length_dropLast, List.length_drop]
    omega
  · intro h
    rw [hL s] at h
    have hlen : ((s.data.drop 1).dropLast).length = 0 := by
      simp only [List.length_dropLast, List.length_drop]
      omega
    have hdat : (s.data.drop 1).dropLast = [] := List.length_eq_zero.mp hlen
    show String.mk ((s.data.drop 1).dropLast) = ""
    rw [hdat]

/-- C10 witness: at the concrete two-character input `"ab"` the slice
returns the empty string. -/
theorem slice_total_short_inputs_empty_witness :
    ("ab" : String).length ≤ 2 ∧ pySliceOneToNegOne "ab" = "" :=
  ⟨by decide, (slice_total_short_inputs_empty "ab").2 (by decide)⟩

/-- C8 counterexample: the claim's character counts are wrong at its own
concrete input — the quoted output text `"A cat."` has 8 characters (not 7)
and its stripped form `A cat.` has 6 characters (not 5). -/
theorem strip_cat_counterexample :
    ("\"A cat.\"" : String).length = 8 ∧
    (("\"A cat.\"" : String).length == 7) = false ∧
    (pySliceOneToNegOne "\"A cat.\"").length = 6 ∧
    ((pySliceOneToNegOne "\"A cat.\"").length == 5) = false := by
  decide

/-- C8 (amended): the stage-2 cleanup `text[1 : -1]` strips exactly one
leading and one trailing character from each output text; in particular the
output text `"A cat."` (8 characters, with quotes) strips to `A cat.`
(6 characters). -/
theorem strip_one_leading_one_trailing :
    (∀ (a b : Char) (mid : List Char),
      pySliceOneToNegOne ⟨a :: (mid ++ [b])⟩ = ⟨mid⟩) ∧
    pySliceOneToNegOne "\"A cat.\"" = "A cat." ∧
    ("\"A cat.\"" : String).length = 8 ∧ ("A cat." : String).length = 6 := by
  refine ⟨?_, by decide, by decide, by decide⟩
  intro a b mid
  simp [pySliceOneToNegOne]

/-- C5 counterexample: on a batch holding one sample with an empty frame
list, the summarization formatter does not fail — it returns normally, and
the sample's conversation carries only the prompt text, no image parts. -/
theorem summary_formatter_empty_frames_counterexample :
    create_video_summary_conversations ⟨[[]], ["video0.mp4"]⟩ none =
      [[⟨"user", [ContentPart.text SUMMARY_USER_PROMPT]⟩]] := by
  rfl

/-- C5 (amended): the summarization formatter performs no frame validation:
it never fails on a sample missing its frames, and it does not skip such a
sample either — a sample with an empty frame list still yields, at its own
position, a conversation containing just the prompt text and no image
content. -/
theorem summary_formatter_no_frame_validation
    (batch : CollatedBatch) (p : Option String) (i : Nat) :
    (create_video_summary_conversations batch p).length = batch.videos.length ∧
    (batch.videos[i]? = some [] →
      (create_video_summary_conversations batch p)[i]? =
        some [⟨"user", [ContentPart.text (p.getD SUMMARY_USER_PROMPT)]⟩]) := by
  constructor
  · simp [create_video_summary_conversations]
  · intro h
    simp [create_video_summary_conversations, List.getElem?_map, h, summaryContent]

/-- C5 amended witness: the concrete no-frame batch `⟨[[]], ["v.mp4"]⟩`
passes the hypothesis and yields the frame-free conversation at index 0. -/
theorem summary_formatter_no_frame_validation_witness :
    ((⟨[[]], ["v.mp4"]⟩ : CollatedBatch).videos[0]? = some []) ∧
    (create_video_summary_conversations ⟨[[]], ["v.mp4"]⟩ none)[0]? =
      some [⟨"user", [ContentPart.text SUMMARY_USER_PROMPT]⟩] :=
  ⟨rfl, (summary_formatter_no_frame_validation ⟨[[]], ["v.mp4"]⟩ none 0).2 rfl⟩

/-- C6 counterexample: `output_queue = queue.Queue()` passes no `maxsize`,
so the queue is created with Python's default `maxsize = 0`, which under
`queue.Queue` semantics is an infinite queue — it is not bounded. -/
theorem output_queue_bounded_counterexample :
    pyQueueBounded output_queue_maxsize = false := by
  rfl

/-- C6 (amended): the queue connecting the inference loop to the writer is
constructed with the default `maxsize = 0` and is therefore unbounded:
`put` never blocks, so the number of undrained items it can hold during a
run is not bounded by any constant. -/
theorem output_queue_unbounded :
    output_queue_maxsize = 0 ∧
    (∀ pending : Nat, pyPutBlocks output_queue_maxsize pending = false) ∧
    (∀ c : Nat, ∃ pending : Nat,
      c < pending ∧ pyPutBlocks output_queue_maxsize pending = false) := by
  refine ⟨rfl, fun pending => rfl, fun c => ⟨c + 1, Nat.lt_succ_self c, rfl⟩⟩

/-- C2: both conversation formatters return one conversation per sample of
their batch, in batch order: the result's length equals the length of the
iterated sample list (for a collated batch, the number of samples), and the
i-th conversation is built from the i-th sample, for every i. -/
theorem formatters_preserve_length_and_order
    (b1 : CollatedBatch) (b2 : VideoDataItem) (p1 p2 : Option String) (i : Nat) :
    (create_video_summary_conversations b1 p1).length = b1.videos.length ∧
    (∀ samples : List VideoSample,
      (create_video_summary_conversations (collate_fn samples) p1).length =
        samples.length) ∧
    (create_video_summary_conversations b1 p1)[i]? =
      (b1.videos[i]?).map
        (fun video => [⟨"user", summaryContent (p1.getD SUMMARY_USER_PROMPT) video⟩]) ∧
    (create_prompt_generation_conversations b2 p2).length = b2.summary.length ∧
    (create_prompt_generation_conversations b2 p2)[i]? =
      (b2.summary[i]?).map
        (promptGenMessages (p2.getD PROMPT_GEN_USER_PROMPT)) := by
  refine ⟨?_, ?_, ?_, ?_, ?_⟩
  · simp [create_video_summary_conversations]
  · intro samples
    simp [create_video_summary_conversations, collate_fn]
  · simp [create_video_summary_conversations, List.getElem?_map]
  · simp [create_prompt_generation_conversations]
  · simp [create_prompt_generation_conversations, List.getElem?_map]

/-- C7: the writer's loop reads with a finite timeout and keeps looping on
every empty-queue timeout, writes every payload it dequeues (in order, up
to the first sentinel), and terminates exactly when it dequeues the
sentinel `None`: its run yields a final result iff the dequeue stream
contains the sentinel. -/
theorem writer_loop_sentinel_termination (evs : List QEvent) (fs : OutFiles) :
    ((save_results evs fs).isSome ↔ QEvent.got none ∈ evs) ∧
    (save_results (QEvent.emptyTimeout :: evs) fs = save_results evs fs) ∧
    (QEvent.got none ∈ evs →
      save_results evs fs =
        some ((payloadsBeforeStop evs).foldl
          (fun acc item => writeItemFiles acc item.1 item.2) fs)) := by
  refine ⟨?_, rfl, ?_⟩
  · induction evs generalizing fs with
    | nil => simp [save_results]
    | cons e rest ih =>
      cases e with
      | emptyTimeout => simpa [save_results] using ih fs
      | got item =>
        cases item with
        | none => simp [save_results]
        | some it =>
          simpa [save_results] using ih (writeItemFiles fs it.1 it.2)
  · induction evs generalizing fs with
    | nil => simp
    | cons e rest ih =>
      intro hmem
      cases e with
      | emptyTimeout =>
        have : QEvent.got none ∈ rest := by simpa using hmem
        simpa [save_results, payloadsBeforeStop] using ih fs this
      | got item =>
        cases item with
        | none => simp [save_results, payloadsBeforeStop]
        | some it =>
          have : QEvent.got none ∈ rest := by simpa using hmem
          simpa [save_results, payloadsBeforeStop] using
            ih (writeItemFiles fs it.1 it.2) this

/-- C7 witness: a concrete stream — one payload, one timeout, the sentinel —
on which the writer terminates having written exactly that payload. -/
theorem writer_loop_sentinel_termination_witness :
    (save_results
        [QEvent.got (some (["a.mp4"], ["capA"])), QEvent.emptyTimeout,
          QEvent.got none] ⟨[], []⟩).isSome = true ∧
    save_results
        [QEvent.got (some (["a.mp4"], ["capA"])), QEvent.emptyTimeout,
          QEvent.got none] ⟨[], []⟩ = some ⟨["a.mp4"], ["capA"]⟩ := by
  have h := writer_loop_sentinel_termination
    [QEvent.got (some (["a.mp4"], ["capA"])), QEvent.emptyTimeout,
      QEvent.got none] ⟨[], []⟩
  exact ⟨h.1.mpr (by simp), by rw [h.2.2 (by simp)]; rfl⟩

/-- C3: every `(filenames, outputs)` pair the pipeline enqueues is balanced
(`len(filenames) = len(outputs)`); each dequeued pair is written as one
atomic unit — all filenames appended to `videos.txt` and all outputs to
`captions.txt` together, by the single writer, never interleaved with
another partial batch; consequently after every completed write the two
files hold equally many lines. -/
theorem writer_paired_appends :
    (∀ (chat1 chat2 : Conversation → String) (samples : List VideoSample)
        (bs : Nat) (p1 p2 : Option String),
      ∀ item ∈ pipelineItems chat1 chat2 samples bs p1 p2,
        item.1.length = item.2.length) ∧
    (∀ (fs : OutFiles) (fns outs : List String),
      writeItemFiles fs fns outs = ⟨fs.videos ++ fns, fs.captions ++ outs⟩) ∧
    (∀ (evs : List QEvent) (fs0 : OutFiles),
      (∀ fns outs, QEvent.got (some (fns, outs)) ∈ evs → fns.length = outs.length) →
      fs0.videos.length = fs0.captions.length →
      ∀ fs ∈ writerStatesList evs fs0,
        fs.videos.length = fs.captions.length) := by
  refine ⟨?_, fun _ _ _ => rfl, ?_⟩
  · intro chat1 chat2 samples bs p1 p2 item hitem
    simp only [pipelineItems, runStage2, List.mem_map] at hitem
    obtain ⟨b2, hb2, rfl⟩ := hitem
    simp only [runStage1, List.mem_map] at hb2
    obtain ⟨b, _, rfl⟩ := hb2
    simp [create_prompt_generation_conversations,
      create_video_summary_conversations, collate_fn]
  · intro evs
    induction evs with
    | nil => intro fs0 _ _ fs hfs; simp [writerStatesList] at hfs
    | cons e rest ih =>
      intro fs0 hbal h0 fs hfs
      cases e with
      | emptyTimeout =>
        exact ih fs0 (fun fns outs hm => hbal fns outs (by simp [hm])) h0 fs
          (by simpa [writerStatesList] using hfs)
      | got item =>
        cases item with
        | none => simp [writerStatesList] at hfs
        | some it =>
          have hit : it.1.length = it.2.length :=
            hbal it.1 it.2 (by simp)
          have h1 : (writeItemFiles fs0 it.1 it.2).videos.length =
              (writeItemFiles fs0 it.1 it.2).captions.length := by
            simp [writeItemFiles, h0, hit]
          simp only [writerStatesList, List.mem_cons] at hfs
          rcases hfs with rfl | hfs
          · exact h1
          · exact ih (writeItemFiles fs0 it.1 it.2)
              (fun fns outs hm => hbal fns outs (by simp [hm])) h1 fs hfs

/-- C3 witness: one balanced two-sample payload followed by the sentinel —
the single recorded post-write state has equally many lines in both files. -/
theorem writer_paired_appends_witness :
    (writerStatesList
        [QEvent.got (some (["v1.mp4", "v2.mp4"], ["c1", "c2"])), QEvent.got none]
        ⟨[], []⟩ = [⟨["v1.mp4", "v2.mp4"], ["c1", "c2"]⟩]) ∧
    (⟨["v1.mp4", "v2.mp4"], ["c1", "c2"]⟩ : OutFiles).videos.length =
      (⟨["v1.mp4", "v2.mp4"], ["c1", "c2"]⟩ : OutFiles).captions.length := by
  refine ⟨rfl, ?_⟩
  refine writer_paired_appends.2.2
    [QEvent.got (some (["v1.mp4", "v2.mp4"], ["c1", "c2"])), QEvent.got none]
    ⟨[], []⟩ ?_ rfl _ ?_
  · intro fns outs hm
    simp at hm
    simp [hm.1, hm.2]
  · simp [writerStatesList, writeItemFiles]

/-- Helper: the `try` body never enqueues the sentinel — only the `finally`
block does. -/
lemma enqueueSentinel_not_mem_tryBodyTrace (n1 n2 : Nat) (f : Option FailAt) :
    MainEv.enqueueSentinel ∉ tryBodyTrace n1 n2 f := by
  rcases f with _ | (k | _ | k) <;>
    simp [tryBodyTrace, stage1CallsTrace, stage2LoopTrace]

/-- Helper: the `try` body never joins the writer — only the `finally`
block does. -/
lemma writerJoin_not_mem_tryBodyTrace (n1 n2 : Nat) (f : Option FailAt) :
    MainEv.writerJoin ∉ tryBodyTrace n1 n2 f := by
  rcases f with _ | (k | _ | k) <;>
    simp [tryBodyTrace, stage1CallsTrace, stage2LoopTrace]

/-- C1: in every run of `main` — completing normally or aborting with a
fatal error at any point after the writer was started — the trace
decomposes as the startup prefix, a body free of sentinel-puts and joins
(holding every real payload put), then exactly one sentinel put, then the
writer join, then the return or the error propagation; in particular the
sentinel is enqueued exactly once, after the last real item, and the writer
is joined before `main` returns or the error propagates. -/
theorem main_shutdown_drain (n1 n2 : Nat) (f : Option FailAt) :
    ∃ body lastEv,
      mainTrace n1 n2 f =
        [MainEv.stage1Load, MainEv.writerStart] ++ body ++
          [MainEv.enqueueSentinel, MainEv.writerJoin, lastEv] ∧
      MainEv.enqueueSentinel ∉ body ∧
      MainEv.writerJoin ∉ body ∧
      (mainTrace n1 n2 f).count MainEv.enqueueSentinel = 1 ∧
      (mainTrace n1 n2 f).count MainEv.writerJoin = 1 ∧
      (f.isSome = true → lastEv = MainEv.raiseErr) ∧
      (f = none → lastEv = MainEv.ret) := by
  refine ⟨tryBodyTrace n1 n2 f, if f.isSome then MainEv.raiseErr else MainEv.ret,
    ?_, enqueueSentinel_not_mem_tryBodyTrace n1 n2 f,
    writerJoin_not_mem_tryBodyTrace n1 n2 f, ?_, ?_, ?_, ?_⟩
  · simp [mainTrace]
  · simp [mainTrace, List.count_append, List.count_cons,
      List.count_eq_zero.mpr (enqueueSentinel_not_mem_tryBodyTrace n1 n2 f)]
    rcases f with _ | f <;> simp
  · simp [mainTrace, List.count_append, List.count_cons,
      List.count_eq_zero.mpr (writerJoin_not_mem_tryBodyTrace n1 n2 f)]
    rcases f with _ | f <;> simp
  · intro h
    simp [h]
  · intro h
    simp [h]

/-- C1 witness: the error-free two-batch run and a run failing during the
stage-2 loop both end `..., sentinel, join, last` with one sentinel put. -/
theorem main_shutdown_drain_witness :
    (mainTrace 1 1 (some (FailAt.duringStage2 0))).count MainEv.enqueueSentinel = 1 ∧
    (mainTrace 1 1 (some (FailAt.duringStage2 0))).count MainEv.writerJoin = 1 := by
  have h := main_shutdown_drain 1 1 (some (FailAt.duringStage2 0))
  obtain ⟨body, lastEv, _, _, _, hs, hj, hlast, _⟩ := h
  exact ⟨hs, hj⟩

/-- C4: in every trace of `main`, either no stage-2 inference call occurs
at all (error before the stage-2 engine existed), or the trace splits at
the teardown barrier: everything before it — including the whole lifetime
of the stage-1 engine — contains no stage-2 call, the barrier performs the
stage-1 release and memory reclamation and only then the stage-2 load, and
the stage-1 engine is never live again afterwards; hence every stage-2 call
strictly follows release, reclamation and the stage-2 load. -/
theorem stage2_calls_after_teardown_barrier (n1 n2 : Nat) (f : Option FailAt) :
    (∀ k, MainEv.stage2Call k ∉ mainTrace n1 n2 f) ∨
    (∃ A B,
      mainTrace n1 n2 f =
        A ++ [MainEv.stage1Release, MainEv.memReclaim, MainEv.stage2Load] ++ B ∧
      (∀ k, MainEv.stage2Call k ∉ A) ∧
      MainEv.stage1Release ∉ B ∧
      MainEv.memReclaim ∉ B ∧
      MainEv.stage2Load ∉ B) := by
  rcases f with _ | (k | _ | k)
  · refine Or.inr ⟨[MainEv.stage1Load, MainEv.writerStart] ++ stage1CallsTrace n1,
      stage2LoopTrace n2 ++ [MainEv.enqueueSentinel, MainEv.writerJoin, MainEv.ret],
      ?_, ?_, ?_, ?_, ?_⟩ <;>
      simp [mainTrace, tryBodyTrace, stage1CallsTrace, stage2LoopTrace]
  · refine Or.inl ?_
    intro j
    simp [mainTrace, tryBodyTrace, stage1CallsTrace]
  · refine Or.inl ?_
    intro j
    simp [mainTrace, tryBodyTrace, stage1CallsTrace]
  · refine Or.inr ⟨[MainEv.stage1Load, MainEv.writerStart] ++ stage1CallsTrace n1,
      stage2LoopTrace (min k n2) ++ [MainEv.stage2Call (min k n2)] ++
        [MainEv.enqueueSentinel, MainEv.writerJoin, MainEv.raiseErr],
      ?_, ?_, ?_, ?_, ?_⟩ <;>
      simp [mainTrace, tryBodyTrace, stage1CallsTrace, stage2LoopTrace]

/-- C4 witness: the instantiation of the barrier property at the error-free
two-batch-per-stage run. -/
theorem stage2_calls_after_teardown_barrier_witness :
    (∀ k, MainEv.stage2Call k ∉ mainTrace 2 2 none) ∨
    (∃ A B,
      mainTrace 2 2 none =
        A ++ [MainEv.stage1Release, MainEv.memReclaim, MainEv.stage2Load] ++ B ∧
      (∀ k, MainEv.stage2Call k ∉ A) ∧
      MainEv.stage1Release ∉ B ∧
      MainEv.memReclaim ∉ B ∧
      MainEv.stage2Load ∉ B) :=
  stage2_calls_after_teardown_barrier 2 2 none

set_option maxHeartbeats 1600000 in
/-- C9: for any run over 10 videos with `batch_size = 4` (engines abstract,
per their same-length same-order contract): stage 1 sees exactly 3 batches
of sizes 4, 4, 2 in arrival order; 10 summary records accumulate; stage 2
produces 10 prompt records; both output files end with exactly 10 lines;
and for every i, line i of `videos.txt` is sample i's filename while line i
of `captions.txt` is the stripped stage-2 output generated, via sample i's
stage-1 summary, from that same sample. -/
theorem end_to_end_ten_videos (chat1 chat2 : Conversation → String)
    (samples : List VideoSample) (p1 p2 : Option String)
    (hlen : samples.length = 10) :
    (chunks 4 samples).map List.length = [4, 4, 2] ∧
    ((runStage1 chat1 samples 4 p1).map (fun vd => vd.summary.length)).sum = 10 ∧
    ((pipelineItems chat1 chat2 samples 4 p1 p2).map
      (fun item => item.2.length)).sum = 10 ∧
    (pipelineFiles chat1 chat2 samples 4 p1 p2).videos.length = 10 ∧
    (pipelineFiles chat1 chat2 samples 4 p1 p2).captions.length = 10 ∧
    (∀ i : Nat, (pipelineFiles chat1 chat2 samples 4 p1 p2).videos[i]? =
      (samples[i]?).map VideoSample.filename) ∧
    (∀ i : Nat, (pipelineFiles chat1 chat2 samples 4 p1 p2).captions[i]? =
      (samples[i]?).map (fun s =>
        pySliceOneToNegOne (chat2 (promptGenMessages
          (p2.getD PROMPT_GEN_USER_PROMPT)
          (chat1 [⟨"user", summaryContent (p1.getD SUMMARY_USER_PROMPT) s.video⟩]))))) := by
  rcases samples with _ | ⟨a0, _ | ⟨a1, _ | ⟨a2, _ | ⟨a3, _ | ⟨a4, _ | ⟨a5,
    _ | ⟨a6, _ | ⟨a7, _ | ⟨a8, _ | ⟨a9, rest⟩⟩⟩⟩⟩⟩⟩⟩⟩⟩ <;>
    simp only [List.length_cons, List.length_nil] at hlen <;> try omega
  obtain rfl : rest = [] := by
    cases rest with
    | nil => rfl
    | cons x xs => simp at hlen
  exact ⟨rfl, rfl, rfl, rfl, rfl,
    fun i => match i with
      | 0 => rfl | 1 => rfl | 2 => rfl | 3 => rfl | 4 => rfl
      | 5 => rfl | 6 => rfl | 7 => rfl | 8 => rfl | 9 => rfl
      | _ + 10 => rfl,
    fun i => match i with
      | 0 => rfl | 1 => rfl | 2 => rfl | 3 => rfl | 4 => rfl
      | 5 => rfl | 6 => rfl | 7 => rfl | 8 => rfl | 9 => rfl
      | _ + 10 => rfl⟩

set_option maxHeartbeats 1600000 in
/-- C9 witness: the scenario instantiated at a concrete ten-video corpus
and concrete engine stubs — batch sizes 4, 4, 2; ten output lines per file;
line 0 of the captions is the stripped stage-2 output for sample 0. -/
theorem end_to_end_ten_videos_witness :
    (chunks 4 tenSamples).map List.length = [4, 4, 2] ∧
    (pipelineFiles (fun _ => "a summary") (fun _ => "\"a prompt\"") tenSamples 4
      none none).videos.length = 10 ∧
    (pipelineFiles (fun _ => "a summary") (fun _ => "\"a prompt\"") tenSamples 4
      none none).captions[0]? = some "a prompt" := by
  have h := end_to_end_ten_videos (fun _ => "a summary") (fun _ => "\"a prompt\"")
    tenSamples none none rfl
  refine ⟨h.1, h.2.2.2.1, ?_⟩
  rw [h.2.2.2.2.2.2 0]
  rfl
